import Mathlib

/-!
Shallow embedding of the Life RPG backend (src/main.py) gamification engine:
the rollover processor, XP award rule, water intake, task completion,
sleep-end scoring and reward purchase, together with proofs of the spec's
testable properties about them.

Modelling conventions:
* Python ints are `Int` (or `Nat` where the source value is a count);
  Python `//` is `Int.fdiv` (floor division).
* A SQL `Date` value is a record of its year, month and day ordinal
  (`(d2 - d1).days` is ordinal subtraction, `d1 < d2` is ordinal order).
* Timestamps are rationals counting seconds since an epoch; Python float
  arithmetic on durations (`/`, `%`, comparisons) is modelled as exact
  rational arithmetic, and `int(x * 1.15)` on level thresholds as exact
  `x * 115 / 100` in `Nat` (IEEE rounding of the literal 1.15 is not
  modelled).
* Each handler is a pure function from its inputs and the loaded profile
  row to the updated row plus the list of history rows it inserts; an
  `HTTPException` is `Except.error`, under which the transaction commits
  nothing (the handler never reaches `db.commit()`).
-/

namespace LifeRPG

/-- A calendar date: year, month, and day ordinal (days since an epoch). -/
structure Date where
  year : Int
  month : Int
  ord : Int
deriving DecidableEq

/-- A custom habit entry stored in the profile's `custom_habits` JSON blob. -/
structure Habit where
  id : String
  name : String
  xp : Int
deriving DecidableEq

/-- One row of the `history` table (user id and timestamp omitted: every
operation modelled here acts on a single user's rows at a single instant). -/
structure History where
  event_type : String
  description : String
  xp_delta : Int
  hp_delta : Int
deriving DecidableEq

/-- The mutable columns of one `user_profiles` row used by the game logic. -/
structure UserProfile where
  hp : Int
  xp : Int
  level : Nat
  current_month_xp : Int
  water_count : Int
  water_goal : Int
  completed_tasks : List String
  sleep_start : Option ℚ
  streak : Int
  last_seen_date : Option Date
  last_month_reset : Option Date
  custom_habits : List Habit
deriving DecidableEq

/-- The `HTTPException` outcomes raised by the handlers. -/
inductive ApiError where
  | notFound (detail : String)
  | conflict (detail : String)
  | badRequest (detail : String)
deriving DecidableEq

/-- Loop of `xp_to_level`: consume `required` XP per level, the requirement
growing by the factor 1.15 (truncated) each level.  The source loop guard is
`xp >= required`; the `0 < required` conjunct is for termination and holds on
every reachable call, since `required` starts at 100 and never decreases. -/
def xp_to_level_go (xp required level : Nat) : Nat :=
  if h : required ≤ xp ∧ 0 < required then
    xp_to_level_go (xp - required) (required * 115 / 100) (level + 1)
  else level
termination_by xp
decreasing_by exact Nat.sub_lt (Nat.lt_of_lt_of_le h.2 h.1) h.2

/-- Function `xp_to_level` from src/main.py: level reached by a given lifetime XP. -/
def xp_to_level (xp : Int) : Nat :=
  xp_to_level_go xp.toNat 100 1

/-- Function `apply_xp_gain` from src/main.py: halve the gain below 30 HP, clamp at 0,
add it to both XP counters and recompute the level.  Returns the updated
profile and the actual awarded amount. -/
def apply_xp_gain (user : UserProfile) (xp_gain : Int) : UserProfile × Int :=
  let g1 := if user.hp < 30 then Int.fdiv xp_gain 2 else xp_gain
  let g2 := if g1 < 0 then 0 else g1
  ({ user with
      xp := user.xp + g2
      current_month_xp := user.current_month_xp + g2
      level := xp_to_level (user.xp + g2) }, g2)

/-- Function `clamp_hp` from src/main.py. -/
def clamp_hp (user : UserProfile) : UserProfile :=
  { user with hp := max 0 (min 100 user.hp) }

/-- The condition of the monthly block of `process_daily_updates`:
`user.last_month_reset is None or (today.year != r.year or today.month != r.month)`. -/
def month_differs (today : Date) : Option Date → Bool
  | none => true
  | some r => today.year != r.year || today.month != r.month

/-- Monthly block of `process_daily_updates`: reset `current_month_xp` when
the stored reset marker is absent or from a different (year, month). -/
def monthly_reset (today : Date) (user : UserProfile) : UserProfile :=
  if month_differs today user.last_month_reset then
    { user with current_month_xp := 0, last_month_reset := some today }
  else user

/-- The penalty history row inserted by `process_daily_updates`. -/
def penalty_entry (days_missed : Int) : History :=
  { event_type := "penalty"
    description := "Штраф за " ++ toString days_missed ++ " пропущенных дней"
    xp_delta := 0
    hp_delta := -(days_missed * 15) }

/-- Daily block of `process_daily_updates`: streak bookkeeping, the missed-day
HP penalty with its history row, and the daily field resets.  The source
applies the streak/penalty updates and then the daily resets
(`water_count = 0`, `completed_tasks = "[]"`, `last_seen_date = today`)
sequentially; here the resets are inlined into both branches. -/
def daily_update (today : Date) (user : UserProfile) :
    UserProfile × List History :=
  match user.last_seen_date with
  | none => ({ user with last_seen_date := some today, streak := 1 }, [])
  | some last =>
    if last.ord < today.ord then
      if today.ord - last.ord = 1 then
        ({ user with
            streak := user.streak + 1
            water_count := 0
            completed_tasks := []
            last_seen_date := some today }, [])
      else
        ({ user with
            hp := max 0 (user.hp - (today.ord - last.ord) * 15)
            streak := 1
            water_count := 0
            completed_tasks := []
            last_seen_date := some today },
         [penalty_entry (today.ord - last.ord)])
    else (user, [])

/-- Function `process_daily_updates` from src/main.py: monthly reset then daily
reset/streak/penalty logic.  Returns the updated profile and the history
rows added. -/
def process_daily_updates (today : Date) (user : UserProfile) :
    UserProfile × List History :=
  daily_update today (monthly_reset today user)

/-- The server-fixed `TASKS` catalog: `(task id, name, xp)`. -/
def TASKS : List (String × String × Int) := [
  ("workout_light", "Лёгкая тренировка", 20),
  ("workout_medium", "Средняя тренировка", 35),
  ("workout_hard", "Интенсивная тренировка", 50),
  ("meditation", "Медитация 10 мин", 15),
  ("reading", "Чтение 30 мин", 15),
  ("walk", "Прогулка на свежем воздухе", 20),
  ("friend_call", "Позвонить другу", 20),
  ("family_time", "Провести время с семьёй", 25),
  ("gratitude", "Написать благодарность", 10),
  ("social_event", "Социальное мероприятие", 30)]

/-- The server-fixed `REWARDS` catalog: `(reward id, name, cost)`. -/
def REWARDS : List (String × String × Int) := [
  ("coffee", "Кофе с собой", 50),
  ("movie", "Кино", 100),
  ("game_hour", "Час игр", 75),
  ("cheat_meal", "Читмил", 120),
  ("spa", "Спа-день", 300),
  ("new_game", "Новая игра", 500)]

/-- Task lookup in `complete_task`: the built-in `TASKS` catalog first, the
profile's custom habits second.  Returns `(name, xp)` when found. -/
def lookup_task (task_id : String) (custom_habits : List Habit) :
    Option (String × Int) :=
  match TASKS.find? (fun t => t.1 == task_id) with
  | some t => some (t.2.1, t.2.2)
  | none =>
    match custom_habits.find? (fun h => h.id == task_id) with
    | some h => some (h.name, h.xp)
    | none => none

/-- The `add_water` handler from src/main.py, given today's date, the validated
request `amount` (the validator requires `amount > 0`) and the loaded profile.
Returns the updated profile, the inserted history rows, and `actual_xp`. -/
def add_water (today : Date) (amount : Int) (user : UserProfile) :
    UserProfile × List History × Int :=
  let user1 := (process_daily_updates today user).1
  let hists := (process_daily_updates today user).2
  let xp_gain := amount * 5
  let hp_gain := amount * 5
  let user2 := (apply_xp_gain user1 xp_gain).1
  let actual_xp := (apply_xp_gain user1 xp_gain).2
  let user3 := { user2 with
      hp := min 100 (user2.hp + hp_gain)
      water_count := user2.water_count + amount }
  (user3,
   hists ++ [{ event_type := "water"
               description := "Выпито " ++ toString amount ++ " стакан(ов) воды"
               xp_delta := actual_xp
               hp_delta := hp_gain }],
   actual_xp)

/-- The `complete_task` handler from src/main.py.  `completed_today` is the set of
`completed_tasks` rows already recorded for this user and today's date; on
success the returned list is that set with the new row added.  An error
commits nothing (the session is closed without `db.commit()`). -/
def complete_task (today : Date) (task_id : String)
    (completed_today : List String) (user : UserProfile) :
    Except ApiError (UserProfile × List String × List History × Int) :=
  let user1 := (process_daily_updates today user).1
  let hists := (process_daily_updates today user).2
  match lookup_task task_id user1.custom_habits with
  | none => .error (.notFound "Task not found")
  | some nx =>
    if task_id ∈ completed_today then
      .error (.conflict "Task already completed today")
    else
      let user2 := (apply_xp_gain user1 nx.2).1
      let actual_xp := (apply_xp_gain user1 nx.2).2
      .ok ({ user2 with completed_tasks :=
               if task_id ∈ user2.completed_tasks then user2.completed_tasks
               else user2.completed_tasks ++ [task_id] },
           completed_today ++ [task_id],
           hists ++ [{ event_type := "task"
                       description := "Задача выполнена: " ++ nx.1
                       xp_delta := actual_xp
                       hp_delta := 0 }],
           actual_xp)

/-- Hour of day (0–23) of a timestamp in seconds, as `datetime.hour` reads it
on a UTC-stored value. -/
def hourOf (t : ℚ) : Int :=
  ⌊t / 3600⌋ % 24

/-- Python `%` on reals with a positive modulus: `a - b * floor(a / b)`. -/
def qmod (a b : ℚ) : ℚ :=
  a - b * (⌊a / b⌋ : ℚ)

/-- The XP/HP computation block of `sleep_end`: duration tier, bedtime bonus
and wake-phase bonus.  Returns `(xp_gain, hp_gain, message)`. -/
def sleep_gains (duration_hours : ℚ) (bedtime_hour : Int) :
    Int × Int × String :=
  if duration_hours < 1/2 then
    (0, 0, "Слишком мало — сон не засчитан")
  else
    let base : Int × Int :=
      if duration_hours < 3 then (10, 5)
      else if duration_hours < 5 then (15, 10)
      else if duration_hours < 15/2 then (30, 15)
      else (50, 20)
    let xp2 :=
      if 21 ≤ bedtime_hour ∧ bedtime_hour ≤ 23 then base.1 + 30
      else if bedtime_hour = 0 ∨ bedtime_hour = 1 then base.1 + 10
      else if 2 ≤ bedtime_hour ∧ bedtime_hour ≤ 5 then base.1 - 10
      else base.1
    let xp3 :=
      if qmod duration_hours (3/2) < 35/100
          ∨ qmod duration_hours (3/2) > 115/100 then xp2 + 20
      else xp2
    (xp3, base.2, "Сон засчитан")

/-- The `sleep_end` handler from src/main.py, given the wake time `now` and the
loaded profile.  Returns the updated profile, the inserted history row, the
duration in hours, `actual_xp` and `hp_gain`.  The human-readable duration
formatting inside the message string is not modelled. -/
def sleep_end (now : ℚ) (user : UserProfile) :
    Except ApiError (UserProfile × List History × ℚ × Int × Int) :=
  match user.sleep_start with
  | none => .error (.badRequest "Not sleeping")
  | some sleep_start_dt =>
    let duration_hours : ℚ := (now - sleep_start_dt) / 3600
    let gains := sleep_gains duration_hours (hourOf sleep_start_dt)
    let xp_gain := gains.1
    let hp_gain := gains.2.1
    let message := gains.2.2
    let step1 : UserProfile × Int :=
      if 0 < xp_gain then apply_xp_gain user xp_gain
      else if xp_gain < 0 then
        ({ user with current_month_xp := max 0 (user.current_month_xp + xp_gain) }, 0)
      else (user, 0)
    let user1 := step1.1
    let actual_xp := step1.2
    let user2 :=
      if 0 < hp_gain then { user1 with hp := min 100 (user1.hp + hp_gain) }
      else user1
    let user3 := clamp_hp user2
    .ok ({ user3 with sleep_start := none },
         [{ event_type := "sleep"
            description := message
            xp_delta := actual_xp
            hp_delta := hp_gain }],
         duration_hours, actual_xp, hp_gain)

/-- The `shop_buy` handler from src/main.py: reward lookup, cost checks, debit of
the monthly XP balance, history row.  `hp`, `xp` and `level` are untouched. -/
def shop_buy (reward_id : String) (user : UserProfile) :
    Except ApiError (UserProfile × List History) :=
  match REWARDS.find? (fun r => r.1 == reward_id) with
  | none => .error (.notFound "Reward not found")
  | some r =>
    if r.2.2 ≤ 0 then .error (.badRequest "Invalid reward cost")
    else if user.current_month_xp < r.2.2 then
      .error (.badRequest "Not enough monthly XP")
    else
      .ok ({ user with current_month_xp := user.current_month_xp - r.2.2 },
           [{ event_type := "shop"
              description := "Куплено: " ++ r.2.1
              xp_delta := -r.2.2
              hp_delta := 0 }])

/-- Lift a predicate over the success payload of a handler result: trivially
true on an error (under which the transaction commits nothing). -/
def onOk {α : Type} (e : Except ApiError α) (P : α → Prop) : Prop :=
  match e with
  | .error _ => True
  | .ok a => P a

/-! ## Field-preservation lemmas for the rollover processor -/

@[simp] theorem monthly_reset_hp (d : Date) (u : UserProfile) :
    (monthly_reset d u).hp = u.hp := by
  unfold monthly_reset; split <;> rfl

@[simp] theorem monthly_reset_xp (d : Date) (u : UserProfile) :
    (monthly_reset d u).xp = u.xp := by
  unfold monthly_reset; split <;> rfl

@[simp] theorem monthly_reset_level (d : Date) (u : UserProfile) :
    (monthly_reset d u).level = u.level := by
  unfold monthly_reset; split <;> rfl

@[simp] theorem monthly_reset_streak (d : Date) (u : UserProfile) :
    (monthly_reset d u).streak = u.streak := by
  unfold monthly_reset; split <;> rfl

@[simp] theorem monthly_reset_water_count (d : Date) (u : UserProfile) :
    (monthly_reset d u).water_count = u.water_count := by
  unfold monthly_reset; split <;> rfl

@[simp] theorem monthly_reset_water_goal (d : Date) (u : UserProfile) :
    (monthly_reset d u).water_goal = u.water_goal := by
  unfold monthly_reset; split <;> rfl

@[simp] theorem monthly_reset_completed_tasks (d : Date) (u : UserProfile) :
    (monthly_reset d u).completed_tasks = u.completed_tasks := by
  unfold monthly_reset; split <;> rfl

@[simp] theorem monthly_reset_custom_habits (d : Date) (u : UserProfile) :
    (monthly_reset d u).custom_habits = u.custom_habits := by
  unfold monthly_reset; split <;> rfl

@[simp] theorem monthly_reset_sleep_start (d : Date) (u : UserProfile) :
    (monthly_reset d u).sleep_start = u.sleep_start := by
  unfold monthly_reset; split <;> rfl

@[simp] theorem monthly_reset_last_seen_date (d : Date) (u : UserProfile) :
    (monthly_reset d u).last_seen_date = u.last_seen_date := by
  unfold monthly_reset; split <;> rfl

theorem month_differs_monthly_reset (d : Date) (u : UserProfile) :
    month_differs d (monthly_reset d u).last_month_reset = false := by
  unfold monthly_reset
  split
  · simp [month_differs]
  · rename_i h
    simpa using h

theorem monthly_reset_of_same_month (d : Date) (u : UserProfile)
    (h : month_differs d u.last_month_reset = false) :
    monthly_reset d u = u := by
  unfold monthly_reset
  simp [h]

@[simp] theorem daily_update_xp (d : Date) (u : UserProfile) :
    (daily_update d u).1.xp = u.xp := by
  unfold daily_update
  split
  · rfl
  · split
    · split <;> rfl
    · rfl

@[simp] theorem daily_update_level (d : Date) (u : UserProfile) :
    (daily_update d u).1.level = u.level := by
  unfold daily_update
  split
  · rfl
  · split
    · split <;> rfl
    · rfl

@[simp] theorem daily_update_current_month_xp (d : Date) (u : UserProfile) :
    (daily_update d u).1.current_month_xp = u.current_month_xp := by
  unfold daily_update
  split
  · rfl
  · split
    · split <;> rfl
    · rfl

@[simp] theorem daily_update_water_goal (d : Date) (u : UserProfile) :
    (daily_update d u).1.water_goal = u.water_goal := by
  unfold daily_update
  split
  · rfl
  · split
    · split <;> rfl
    · rfl

@[simp] theorem daily_update_custom_habits (d : Date) (u : UserProfile) :
    (daily_update d u).1.custom_habits = u.custom_habits := by
  unfold daily_update
  split
  · rfl
  · split
    · split <;> rfl
    · rfl

@[simp] theorem daily_update_sleep_start (d : Date) (u : UserProfile) :
    (daily_update d u).1.sleep_start = u.sleep_start := by
  unfold daily_update
  split
  · rfl
  · split
    · split <;> rfl
    · rfl

@[simp] theorem daily_update_last_month_reset (d : Date) (u : UserProfile) :
    (daily_update d u).1.last_month_reset = u.last_month_reset := by
  unfold daily_update
  split
  · rfl
  · split
    · split <;> rfl
    · rfl

theorem daily_update_last_seen (d : Date) (u : UserProfile) :
    ∃ l, (daily_update d u).1.last_seen_date = some l ∧ ¬ l.ord < d.ord := by
  unfold daily_update
  split
  · exact ⟨d, rfl, lt_irrefl _⟩
  · rename_i last h
    split
    · split <;> exact ⟨d, rfl, lt_irrefl _⟩
    · rename_i hlt
      exact ⟨last, h, hlt⟩

theorem daily_update_noop (d : Date) (u : UserProfile) (l : Date)
    (h : u.last_seen_date = some l) (hlt : ¬ l.ord < d.ord) :
    daily_update d u = (u, []) := by
  unfold daily_update
  simp [h, hlt]

/-! ## Lemmas about the XP award rule and the handlers -/

@[simp] theorem apply_xp_gain_hp (u : UserProfile) (g : Int) :
    (apply_xp_gain u g).1.hp = u.hp := rfl

@[simp] theorem apply_xp_gain_water_count (u : UserProfile) (g : Int) :
    (apply_xp_gain u g).1.water_count = u.water_count := rfl

@[simp] theorem apply_xp_gain_water_goal (u : UserProfile) (g : Int) :
    (apply_xp_gain u g).1.water_goal = u.water_goal := rfl

@[simp] theorem apply_xp_gain_streak (u : UserProfile) (g : Int) :
    (apply_xp_gain u g).1.streak = u.streak := rfl

@[simp] theorem apply_xp_gain_completed_tasks (u : UserProfile) (g : Int) :
    (apply_xp_gain u g).1.completed_tasks = u.completed_tasks := rfl

@[simp] theorem apply_xp_gain_custom_habits (u : UserProfile) (g : Int) :
    (apply_xp_gain u g).1.custom_habits = u.custom_habits := rfl

@[simp] theorem apply_xp_gain_sleep_start (u : UserProfile) (g : Int) :
    (apply_xp_gain u g).1.sleep_start = u.sleep_start := rfl

theorem apply_xp_gain_level_eq (u : UserProfile) (g : Int) :
    (apply_xp_gain u g).1.level = xp_to_level (apply_xp_gain u g).1.xp := rfl

theorem onOk_intro {α : Type} (e : Except ApiError α) (P : α → Prop)
    (h : ∀ a, e = .ok a → P a) : onOk e P := by
  unfold onOk
  cases e
  · trivial
  · exact h _ rfl

@[simp] theorem process_daily_updates_xp (d : Date) (u : UserProfile) :
    (process_daily_updates d u).1.xp = u.xp := by
  unfold process_daily_updates
  simp

@[simp] theorem process_daily_updates_level (d : Date) (u : UserProfile) :
    (process_daily_updates d u).1.level = u.level := by
  unfold process_daily_updates
  simp

@[simp] theorem process_daily_updates_water_goal (d : Date) (u : UserProfile) :
    (process_daily_updates d u).1.water_goal = u.water_goal := by
  unfold process_daily_updates
  simp

@[simp] theorem process_daily_updates_custom_habits (d : Date) (u : UserProfile) :
    (process_daily_updates d u).1.custom_habits = u.custom_habits := by
  unfold process_daily_updates
  simp

@[simp] theorem process_daily_updates_sleep_start (d : Date) (u : UserProfile) :
    (process_daily_updates d u).1.sleep_start = u.sleep_start := by
  unfold process_daily_updates
  simp

/-- The rollover never increases `hp`, and keeps it non-negative. -/
theorem process_daily_updates_hp_le (d : Date) (u : UserProfile)
    (h0 : 0 ≤ u.hp) :
    0 ≤ (process_daily_updates d u).1.hp
      ∧ (process_daily_updates d u).1.hp ≤ u.hp := by
  unfold process_daily_updates daily_update
  split
  · simp [h0]
  · split
    · split
      · simp [h0]
      · rename_i hlt hne
        dsimp only
        simp only [monthly_reset_hp]
        omega
    · simp [h0]

/-! ## Concrete profiles for witnesses and counterexamples -/

/-- A concrete profile: a user already seen today (day ordinal 100 of
October 2025) with full HP and default fields. -/
def uBase : UserProfile :=
  { hp := 100
    xp := 0
    level := 1
    current_month_xp := 0
    water_count := 0
    water_goal := 8
    completed_tasks := []
    sleep_start := none
    streak := 0
    last_seen_date := some ⟨2025, 10, 100⟩
    last_month_reset := some ⟨2025, 10, 99⟩
    custom_habits := [] }

/-- The same profile at 20 HP (below the XP-halving threshold). -/
def uLow : UserProfile := { uBase with hp := 20 }

/-- Today's date for the concrete profiles. -/
def dToday : Date := ⟨2025, 10, 100⟩

/-- The base profile with the water goal already met today. -/
def uWater : UserProfile := { uBase with water_count := 8 }

/-- The base profile with a running streak of 7. -/
def uStreak : UserProfile := { uBase with streak := 7 }

/-- A 20-HP profile owning a custom habit worth a nominal 100 XP. -/
def uTask : UserProfile :=
  { uBase with hp := 20, custom_habits := [⟨"custom_big", "Big", 100⟩] }

/-- A 50-HP profile with an open sleep session started at 22:00 UTC
(79200 seconds into the epoch day). -/
def uSleep : UserProfile :=
  { uBase with hp := 50, sleep_start := some (79200 : ℚ) }

/-! ## Claim theorems -/

/-- C1: running `process_daily_updates` twice with the same wall-clock date
is idempotent: the second call returns the profile of the first call
unchanged and appends no history entry. -/
theorem claim_c1_rollover_idempotent (d : Date) (u : UserProfile) :
    process_daily_updates d (process_daily_updates d u).1
      = ((process_daily_updates d u).1, []) := by
  unfold process_daily_updates
  have hm : month_differs d (daily_update d (monthly_reset d u)).1.last_month_reset
      = false := by
    rw [daily_update_last_month_reset]
    exact month_differs_monthly_reset d u
  rw [monthly_reset_of_same_month _ _ hm]
  obtain ⟨l, hl, hlt⟩ := daily_update_last_seen d (monthly_reset d u)
  exact daily_update_noop d _ l hl hlt

/-- C2: for a profile with `hp ∈ [0,100)` and a non-negative nominal award
`n`, the XP award rule returns `⌊n/2⌋` below 30 HP and `n` otherwise, and
adds exactly that amount to both `xp` and `current_month_xp`. -/
theorem claim_c2_xp_award_rule (u : UserProfile) (n : Int)
    (hn : 0 ≤ n) (h0 : 0 ≤ u.hp) (h1 : u.hp < 100) :
    (apply_xp_gain u n).2 = (if u.hp < 30 then n / 2 else n)
    ∧ (apply_xp_gain u n).1.xp = u.xp + (apply_xp_gain u n).2
    ∧ (apply_xp_gain u n).1.current_month_xp
        = u.current_month_xp + (apply_xp_gain u n).2 := by
  unfold apply_xp_gain
  rw [Int.fdiv_eq_ediv _ (by norm_num)]
  have hd : 0 ≤ n / 2 := Int.ediv_nonneg hn (by norm_num)
  refine ⟨?_, ?_, ?_⟩ <;> dsimp only <;> split_ifs <;> first | rfl | omega

/-- Witness for C2 at a concrete low-HP profile and award 7. -/
theorem claim_c2_witness :
    ((0 : Int) ≤ 7 ∧ (0 : Int) ≤ uLow.hp ∧ uLow.hp < 100)
    ∧ ((apply_xp_gain uLow 7).2 = (if uLow.hp < 30 then 7 / 2 else 7)
       ∧ (apply_xp_gain uLow 7).1.xp = uLow.xp + (apply_xp_gain uLow 7).2
       ∧ (apply_xp_gain uLow 7).1.current_month_xp
           = uLow.current_month_xp + (apply_xp_gain uLow 7).2) :=
  ⟨⟨by norm_num, by norm_num [uLow], by norm_num [uLow]⟩,
   claim_c2_xp_award_rule uLow 7 (by norm_num) (by norm_num [uLow])
     (by norm_num [uLow])⟩

/-- C3: every engine operation (rollover, water intake, task completion,
sleep end, reward purchase) keeps `hp` within `[0,100]` when it was within
`[0,100]` before (for water, under the validator's `amount > 0`). -/
theorem claim_c3_hp_in_range (today : Date) (u : UserProfile) (amount : Int)
    (tid : String) (rows : List String) (now : ℚ) (rid : String)
    (h0 : 0 ≤ u.hp) (h1 : u.hp ≤ 100) (ha : 0 < amount) :
    (0 ≤ (process_daily_updates today u).1.hp
      ∧ (process_daily_updates today u).1.hp ≤ 100)
    ∧ (0 ≤ (add_water today amount u).1.hp
      ∧ (add_water today amount u).1.hp ≤ 100)
    ∧ onOk (complete_task today tid rows u) (fun r => 0 ≤ r.1.hp ∧ r.1.hp ≤ 100)
    ∧ onOk (sleep_end now u) (fun r => 0 ≤ r.1.hp ∧ r.1.hp ≤ 100)
    ∧ onOk (shop_buy rid u) (fun r => 0 ≤ r.1.hp ∧ r.1.hp ≤ 100) := by
  obtain ⟨hp0, hp1⟩ := process_daily_updates_hp_le today u h0
  refine ⟨⟨hp0, le_trans hp1 h1⟩, ?_, ?_, ?_, ?_⟩
  · unfold add_water
    dsimp only
    simp only [apply_xp_gain_hp]
    omega
  · apply onOk_intro
    intro r hrr
    unfold complete_task at hrr
    dsimp only at hrr
    split at hrr
    · exact Except.noConfusion hrr
    · split at hrr
      · exact Except.noConfusion hrr
      · injection hrr with hrr
        subst hrr
        dsimp only
        simp only [apply_xp_gain_hp]
        exact ⟨hp0, le_trans hp1 h1⟩
  · apply onOk_intro
    intro r hrr
    unfold sleep_end at hrr
    split at hrr
    · exact Except.noConfusion hrr
    · injection hrr with hrr
      subst hrr
      unfold clamp_hp
      dsimp only
      omega
  · apply onOk_intro
    intro r hrr
    unfold shop_buy at hrr
    split at hrr
    · exact Except.noConfusion hrr
    · split at hrr
      · exact Except.noConfusion hrr
      · split at hrr
        · exact Except.noConfusion hrr
        · injection hrr with hrr
          subst hrr
          exact ⟨h0, h1⟩

/-- Witness for C3 at the concrete profile and concrete operation inputs. -/
theorem claim_c3_witness :
    (0 ≤ uBase.hp ∧ uBase.hp ≤ 100 ∧ (0 : Int) < 1)
    ∧ ((0 ≤ (process_daily_updates dToday uBase).1.hp
        ∧ (process_daily_updates dToday uBase).1.hp ≤ 100)
      ∧ (0 ≤ (add_water dToday 1 uBase).1.hp
        ∧ (add_water dToday 1 uBase).1.hp ≤ 100)
      ∧ onOk (complete_task dToday "meditation" [] uBase)
          (fun r => 0 ≤ r.1.hp ∧ r.1.hp ≤ 100)
      ∧ onOk (sleep_end 3600 uBase) (fun r => 0 ≤ r.1.hp ∧ r.1.hp ≤ 100)
      ∧ onOk (shop_buy "coffee" uBase) (fun r => 0 ≤ r.1.hp ∧ r.1.hp ≤ 100)) :=
  ⟨⟨by norm_num [uBase], by norm_num [uBase], by norm_num⟩,
   claim_c3_hp_in_range dToday uBase 1 "meditation" [] 3600 "coffee"
     (by norm_num [uBase]) (by norm_num [uBase]) (by norm_num)⟩

/-- C10: after every operation that changes `xp`, the `level` column equals
`xp_to_level xp`: the XP award rule recomputes it on every gain, and the
rollover and the shop leave both `xp` and `level` untouched.  For sleep,
either the level was recomputed, or `xp` (and `level`) did not change. -/
theorem claim_c10_level_tracks_xp :
    (∀ u g, (apply_xp_gain u g).1.level = xp_to_level (apply_xp_gain u g).1.xp)
    ∧ (∀ d u, (process_daily_updates d u).1.xp = u.xp
        ∧ (process_daily_updates d u).1.level = u.level)
    ∧ (∀ d a u, (add_water d a u).1.level = xp_to_level (add_water d a u).1.xp)
    ∧ (∀ d tid rows u, onOk (complete_task d tid rows u)
        (fun r => r.1.level = xp_to_level r.1.xp))
    ∧ (∀ now u, onOk (sleep_end now u)
        (fun r => r.1.level = xp_to_level r.1.xp
          ∨ (r.1.xp = u.xp ∧ r.1.level = u.level)))
    ∧ (∀ rid u, onOk (shop_buy rid u)
        (fun r => r.1.xp = u.xp ∧ r.1.level = u.level)) := by
  refine ⟨fun u g => rfl, ?_, fun d a u => rfl, ?_, ?_, ?_⟩
  · intro d u
    unfold process_daily_updates
    constructor <;> simp
  · intro d tid rows u
    apply onOk_intro
    intro r hr
    unfold complete_task at hr
    dsimp only at hr
    split at hr
    · exact Except.noConfusion hr
    · split at hr
      · exact Except.noConfusion hr
      · injection hr with hr
        subst hr
        rfl
  · intro now u
    apply onOk_intro
    intro r hr
    unfold sleep_end at hr
    split at hr
    · exact Except.noConfusion hr
    · injection hr with hr
      subst hr
      dsimp only
      split <;> split <;> (try split) <;>
        first
          | exact Or.inl rfl
          | exact Or.inr ⟨rfl, rfl⟩
  · intro rid u
    apply onOk_intro
    intro r hr
    unfold shop_buy at hr
    split at hr
    · exact Except.noConfusion hr
    · split at hr
      · exact Except.noConfusion hr
      · split at hr
        · exact Except.noConfusion hr
        · injection hr with hr
          subst hr
          exact ⟨rfl, rfl⟩

/-- Counterexample to C4: with `lastActiveDate` exactly one day ago
(`daysMissed = 1 > 0`), the rollover applies no HP penalty (hp stays 100
instead of dropping by `min(1*15, 100) = 15`) and appends no history entry. -/
theorem claim_c4_counterexample :
    uBase.last_seen_date = some ⟨2025, 10, 100⟩
    ∧ (process_daily_updates ⟨2025, 10, 101⟩ uBase).1.hp = 100
    ∧ ¬ (process_daily_updates ⟨2025, 10, 101⟩ uBase).1.hp
        = uBase.hp - min (1 * 15) uBase.hp
    ∧ (process_daily_updates ⟨2025, 10, 101⟩ uBase).2 = [] := by
  refine ⟨rfl, by decide, by decide, by decide⟩

/-- C4 (amended): the rollover penalises only gaps of at least two days:
for `daysMissed ≥ 2` it sets `hp = max(0, hp - daysMissed*15)` (equivalently
`hp -= min(daysMissed*15, hp)` for non-negative hp) and appends exactly the
penalty history entry, whose XP amount is 0; for `daysMissed = 1` it applies
no penalty and appends no entry, incrementing the streak instead. -/
theorem claim_c4_missed_days_penalty (today : Date) (u : UserProfile)
    (last : Date) (hlast : u.last_seen_date = some last)
    (hlt : last.ord < today.ord) (h0 : 0 ≤ u.hp) :
    (today.ord - last.ord = 1 →
      (process_daily_updates today u).1.hp = u.hp
      ∧ (process_daily_updates today u).1.streak = u.streak + 1
      ∧ (process_daily_updates today u).2 = [])
    ∧ (2 ≤ today.ord - last.ord →
      (process_daily_updates today u).1.hp
        = u.hp - min ((today.ord - last.ord) * 15) u.hp
      ∧ (process_daily_updates today u).2
        = [penalty_entry (today.ord - last.ord)]
      ∧ (penalty_entry (today.ord - last.ord)).xp_delta = 0) := by
  unfold process_daily_updates daily_update
  simp only [monthly_reset_last_seen_date, hlast]
  rw [if_pos hlt]
  constructor
  · intro h1
    rw [if_pos h1]
    exact ⟨by simp, by simp, rfl⟩
  · intro h2
    rw [if_neg (by omega)]
    refine ⟨?_, rfl, rfl⟩
    simp only [monthly_reset_hp]
    omega

/-- Witness for C4 at a three-day gap on the concrete profile. -/
theorem claim_c4_witness :
    (uBase.last_seen_date = some ⟨2025, 10, 100⟩
      ∧ (100 : Int) < 103 ∧ 0 ≤ uBase.hp)
    ∧ ((Date.ord ⟨2025, 10, 103⟩ - Date.ord ⟨2025, 10, 100⟩ = 1 →
        (process_daily_updates ⟨2025, 10, 103⟩ uBase).1.hp = uBase.hp
        ∧ (process_daily_updates ⟨2025, 10, 103⟩ uBase).1.streak
            = uBase.streak + 1
        ∧ (process_daily_updates ⟨2025, 10, 103⟩ uBase).2 = [])
      ∧ (2 ≤ Date.ord ⟨2025, 10, 103⟩ - Date.ord ⟨2025, 10, 100⟩ →
        (process_daily_updates ⟨2025, 10, 103⟩ uBase).1.hp
          = uBase.hp - min ((Date.ord ⟨2025, 10, 103⟩
              - Date.ord ⟨2025, 10, 100⟩) * 15) uBase.hp
        ∧ (process_daily_updates ⟨2025, 10, 103⟩ uBase).2
          = [penalty_entry (Date.ord ⟨2025, 10, 103⟩
              - Date.ord ⟨2025, 10, 100⟩)]
        ∧ (penalty_entry (Date.ord ⟨2025, 10, 103⟩
            - Date.ord ⟨2025, 10, 100⟩)).xp_delta = 0)) :=
  ⟨⟨rfl, by norm_num, by norm_num [uBase]⟩,
   claim_c4_missed_days_penalty ⟨2025, 10, 103⟩ uBase ⟨2025, 10, 100⟩ rfl
     (by norm_num) (by norm_num [uBase])⟩

/-- Counterexample to C5: with `waterCount = waterGoal = 8` already met,
`add_water` is not a no-op — it increments `waterCount` to 9, awards 5 XP
and appends a history entry (the handler has no goal check at all). -/
theorem claim_c5_counterexample :
    uWater.water_goal ≤ uWater.water_count
    ∧ (add_water dToday 1 uWater).1.water_count = 9
    ∧ ¬ (add_water dToday 1 uWater).1.water_count = uWater.water_count
    ∧ (add_water dToday 1 uWater).2.2 = 5
    ∧ (add_water dToday 1 uWater).2.1.length = 1 := by
  refine ⟨by decide, by decide, by decide, by decide, by decide⟩

/-- C5 (amended): `add_water` never checks the water goal: even when the
goal is already met it increments `waterCount` by `amount`, awards XP on a
nominal `5*amount` through the XP award rule, heals
`hp = min(100, hp + 5*amount)` and appends one history entry. -/
theorem claim_c5_water_always_counts (today : Date) (amount : Int)
    (u : UserProfile) (hgoal : u.water_goal ≤ u.water_count)
    (ha : 0 < amount) :
    (add_water today amount u).1.water_count
      = (process_daily_updates today u).1.water_count + amount
    ∧ (add_water today amount u).2.2
      = (apply_xp_gain (process_daily_updates today u).1 (amount * 5)).2
    ∧ (add_water today amount u).1.hp
      = min 100 ((process_daily_updates today u).1.hp + amount * 5)
    ∧ (add_water today amount u).2.1.length
      = (process_daily_updates today u).2.length + 1 := by
  unfold add_water
  dsimp only
  refine ⟨?_, rfl, ?_, ?_⟩
  · simp only [apply_xp_gain_water_count]
  · simp only [apply_xp_gain_hp]
  · simp

/-- Witness for C5 at the concrete goal-met profile. -/
theorem claim_c5_witness :
    (uWater.water_goal ≤ uWater.water_count ∧ (0 : Int) < 1)
    ∧ ((add_water dToday 1 uWater).1.water_count
        = (process_daily_updates dToday uWater).1.water_count + 1
      ∧ (add_water dToday 1 uWater).2.2
        = (apply_xp_gain (process_daily_updates dToday uWater).1 (1 * 5)).2
      ∧ (add_water dToday 1 uWater).1.hp
        = min 100 ((process_daily_updates dToday uWater).1.hp + 1 * 5)
      ∧ (add_water dToday 1 uWater).2.1.length
        = (process_daily_updates dToday uWater).2.length + 1) :=
  ⟨⟨by decide, by norm_num⟩,
   claim_c5_water_always_counts dToday 1 uWater (by decide) (by norm_num)⟩

/-- Counterexample to C6: the streak is not tied to the water goal.  After a
three-day gap the rollover resets the streak to 1, not 0; and completing the
water goal through `add_water` leaves the streak unchanged instead of
incrementing it. -/
theorem claim_c6_counterexample :
    (process_daily_updates ⟨2025, 10, 103⟩ uStreak).1.streak = 1
    ∧ ¬ (process_daily_updates ⟨2025, 10, 103⟩ uStreak).1.streak = 0
    ∧ (add_water dToday 1 { uStreak with water_count := 7 }).1.water_count
        = uStreak.water_goal
    ∧ (add_water dToday 1 { uStreak with water_count := 7 }).1.streak
        = uStreak.streak := by
  refine ⟨by decide, by decide, by decide, by decide⟩

/-- C6 (amended): the streak counts consecutive days on which the user was
seen (any operation that runs the rollover): it increments by exactly 1 when
the previous seen day is yesterday, and resets to 1 after any longer gap;
the water counter plays no role (drinking water never changes the streak). -/
theorem claim_c6_streak_tracks_active_days (d : Date) (u : UserProfile)
    (last : Date) (hlast : u.last_seen_date = some last)
    (hlt : last.ord < d.ord) :
    (process_daily_updates d u).1.streak
      = (if d.ord - last.ord = 1 then u.streak + 1 else 1)
    ∧ ∀ a : Int, (add_water d a u).1.streak
        = (process_daily_updates d u).1.streak := by
  constructor
  · unfold process_daily_updates daily_update
    simp only [monthly_reset_last_seen_date, hlast]
    rw [if_pos hlt]
    split
    · simp
    · simp
  · intro a
    unfold add_water
    dsimp only
    simp only [apply_xp_gain_streak]

/-- Witness for C6 at a one-day continuation on the concrete profile. -/
theorem claim_c6_witness :
    (uStreak.last_seen_date = some ⟨2025, 10, 100⟩
      ∧ (100 : Int) < 101)
    ∧ ((process_daily_updates ⟨2025, 10, 101⟩ uStreak).1.streak
        = (if Date.ord ⟨2025, 10, 101⟩ - Date.ord ⟨2025, 10, 100⟩ = 1
           then uStreak.streak + 1 else 1)
      ∧ ∀ a : Int, (add_water ⟨2025, 10, 101⟩ a uStreak).1.streak
          = (process_daily_updates ⟨2025, 10, 101⟩ uStreak).1.streak) :=
  ⟨⟨rfl, by norm_num⟩,
   claim_c6_streak_tracks_active_days ⟨2025, 10, 101⟩ uStreak ⟨2025, 10, 100⟩
     rfl (by norm_num)⟩

/-- Counterexample to C7: completing a task already recorded for today does
not return the current state as a no-op — the handler raises a 409 conflict
`HTTPException`, under which no change is committed. -/
theorem claim_c7_counterexample :
    complete_task dToday "meditation" ["meditation"] uBase
      = .error (.conflict "Task already completed today") := rfl

/-- C7 (amended): completing the same `taskId` a second time on the same day
fails with the 409 conflict error (rather than an idempotent no-op), so the
XP of the task is awarded exactly once, by the first call. -/
theorem claim_c7_duplicate_task_conflict (d : Date) (tid : String)
    (rows : List String) (u : UserProfile) :
    onOk (complete_task d tid rows u)
      (fun r => complete_task d tid r.2.1 r.1
        = .error (.conflict "Task already completed today")) := by
  apply onOk_intro
  intro r hr
  unfold complete_task at hr
  dsimp only at hr
  split at hr
  · exact Except.noConfusion hr
  · rename_i nx hL
    split at hr
    · exact Except.noConfusion hr
    · injection hr with hr
      subst hr
      unfold complete_task
      dsimp only
      simp only [process_daily_updates_custom_habits,
        apply_xp_gain_custom_habits] at hL ⊢
      rw [hL]
      dsimp only
      rw [if_pos (show tid ∈ rows ++ [tid] from by simp)]

/-- Counterexample to C8: completing a fresh task never heals HP.  A 20-HP
profile completing a nominal-100-XP custom task gains 50 XP (the low-HP
halving) but stays at 20 HP instead of the claimed 25. -/
theorem claim_c8_counterexample :
    (complete_task dToday "custom_big" [] uTask).toOption.map
        (fun r => (r.1.hp, r.1.xp, r.2.2.2)) = some (20, 50, 50)
    ∧ ¬ (complete_task dToday "custom_big" [] uTask).toOption.map
        (fun r => r.1.hp) = some 25 := by
  refine ⟨by decide, by decide⟩

/-- C8 (amended): completing a not-yet-completed known task leaves `hp`
exactly as the rollover left it (no +5 heal); in the concrete scenario the
20-HP profile completing a nominal-100-XP task gains 50 total XP and keeps
hp = 20. -/
theorem claim_c8_task_completion_no_heal (d : Date) (tid : String)
    (rows : List String) (u : UserProfile) :
    onOk (complete_task d tid rows u)
      (fun r => r.1.hp = (process_daily_updates d u).1.hp)
    ∧ (complete_task dToday "custom_big" [] uTask).toOption.map
        (fun r => (r.1.hp, r.1.xp - uTask.xp)) = some (20, 50) := by
  constructor
  · apply onOk_intro
    intro r hr
    unfold complete_task at hr
    dsimp only at hr
    split at hr
    · exact Except.noConfusion hr
    · split at hr
      · exact Except.noConfusion hr
      · injection hr with hr
        subst hr
        dsimp only
        simp only [apply_xp_gain_hp]
  · decide

/-- Counterexample to C9: a sleep session started at hour 22 with duration
6h yields 80 nominal XP but only 15 HP, not the claimed 20 — the wake-phase
bonus awards XP only, no HP. -/
theorem claim_c9_counterexample :
    (sleep_end 100800 uSleep).toOption.map
        (fun r => (r.2.2.1, r.2.2.2.1, r.2.2.2.2)) = some (6, 80, 15)
    ∧ ¬ (sleep_end 100800 uSleep).toOption.map
        (fun r => r.2.2.2.2) = some 20 := by
  have hg : sleep_gains ((100800 - 79200) / 3600) (hourOf (79200 : ℚ))
      = (80, 15, "Сон засчитан") := by
    norm_num [sleep_gains, hourOf, qmod]
  constructor
  · unfold sleep_end
    rw [show uSleep.sleep_start = some (79200 : ℚ) from rfl]
    dsimp only
    rw [hg]
    norm_num [Except.toOption, apply_xp_gain, clamp_hp, uSleep, uBase]
  · unfold sleep_end
    rw [show uSleep.sleep_start = some (79200 : ℚ) from rfl]
    dsimp only
    rw [hg]
    norm_num [Except.toOption, apply_xp_gain, clamp_hp, uSleep, uBase]

/-- C9 (amended): ending a sleep session started at hour 22 (the code reads
the hour of the stored UTC timestamp; no timezone offset is applied) with
duration 6h yields the `<7.5h` tier `(30xp, 15hp)`, the 21–23h bedtime bonus
`+30xp`, and the wake-phase bonus `+20xp` with no HP component — a total of
80 nominal XP (awarded in full at `hp ≥ 30`) and 15 HP, clamped at 100. -/
theorem claim_c9_sleep_scenario (u : UserProfile) (s : ℚ)
    (hs : u.sleep_start = some s) (hh : hourOf s = 22)
    (h0 : 0 ≤ u.hp) (h30 : 30 ≤ u.hp) :
    (sleep_end (s + 6 * 3600) u).toOption.map
        (fun r => (r.2.2.1, r.2.2.2.1, r.2.2.2.2, r.1.hp))
      = some (6, 80, 15, min 100 (u.hp + 15)) := by
  have hd : (s + 6 * 3600 - s) / 3600 = (6 : ℚ) := by
    ring_nf
  have hg : sleep_gains 6 22 = (80, 15, "Сон засчитан") := by
    norm_num [sleep_gains, qmod]
  unfold sleep_end
  rw [hs]
  dsimp only
  rw [hd, hh, hg]
  dsimp only
  rw [if_pos (show (0 : Int) < (80, 15, "Сон засчитан").1 from by norm_num),
    if_pos (show (0 : Int) < (80, 15, "Сон засчитан").2.1 from by norm_num)]
  unfold apply_xp_gain clamp_hp
  rw [if_neg (not_lt.2 h30)]
  dsimp only
  rw [if_neg (show ¬ (80 : Int) < 0 from by norm_num)]
  simp only [Except.toOption, Option.map, Prod.mk.injEq]
  have hclamp : (0 : Int) ⊔ 100 ⊓ (100 ⊓ (u.hp + 15)) = 100 ⊓ (u.hp + 15) := by
    omega
  rw [hclamp]

/-- Witness for C9 at the concrete open sleep session. -/
theorem claim_c9_witness :
    (uSleep.sleep_start = some (79200 : ℚ) ∧ hourOf (79200 : ℚ) = 22
      ∧ 0 ≤ uSleep.hp ∧ 30 ≤ uSleep.hp)
    ∧ (sleep_end ((79200 : ℚ) + 6 * 3600) uSleep).toOption.map
        (fun r => (r.2.2.1, r.2.2.2.1, r.2.2.2.2, r.1.hp))
      = some (6, 80, 15, min 100 (uSleep.hp + 15)) :=
  ⟨⟨rfl, by norm_num [hourOf], by norm_num [uSleep, uBase],
    by norm_num [uSleep, uBase]⟩,
   claim_c9_sleep_scenario uSleep 79200 rfl (by norm_num [hourOf])
     (by norm_num [uSleep, uBase]) (by norm_num [uSleep, uBase])⟩

end LifeRPG
